import Mathlib

/-!
Shallow embedding of the SPORTMAG order/stock/payment core
(src/apps/orders/services.py, src/apps/orders/models.py,
src/apps/catalog/models.py, src/apps/cart/services.py,
src/apps/orders/views.py).

Modelling conventions:
* Python `Decimal` values are embedded as `Dec`, a coefficient/scale pair
  (value = c / 10^s), which is exactly the representation `decimal.Decimal`
  uses; arithmetic on the amounts in scope is exact (well inside the
  default 28-digit context).
* Python `float(...)` conversion (used by `PaymentService.create_payment`
  for the amount check) is embedded as `pyFloat`, correctly-rounded
  IEEE-754 binary64 (round to nearest, ties to even) in the normal range;
  exponent overflow/underflow of binary64 is not modelled, as every amount
  in scope is far inside the normal range.
* The database is a record of lists (`DBState`); Django ORM calls become
  explicit state-passing functions on it.  `@transaction.atomic` is
  embedded as: if the wrapped computation ends in an error (a raised
  exception), the caller observes the pre-call state (rollback).
* The repository keeps two code paths for order/payment creation: a
  PostgreSQL stored procedure and a Python fallback in
  src/apps/orders/services.py.  The stored procedures are not part of the
  repository sources; following the spec (§9), the application-level
  Python fallback is embedded as the authoritative algorithm.
* An optional `failAt` argument injects a persistence failure before the
  creation of the line item with that index, to model an unexpected
  infrastructure error mid-workflow; the real code path corresponds to
  `failAt = none`.
-/

deriving instance DecidableEq for Except

set_option maxRecDepth 100000

namespace SportMag

/-- Python `decimal.Decimal`: coefficient `c` with scale `s`, value `c / 10^s`. -/
structure Dec where
  c : ℤ
  s : ℕ
deriving DecidableEq

/-- `Decimal('0')`. -/
def Dec.zero : Dec := ⟨0, 0⟩

/-- Exact decimal addition (result scale is the larger scale). -/
def Dec.add (a b : Dec) : Dec :=
  if a.s ≤ b.s then ⟨a.c * 10 ^ (b.s - a.s) + b.c, b.s⟩
  else ⟨a.c + b.c * 10 ^ (a.s - b.s), a.s⟩

/-- Exact product of a decimal with a Python int (`price * quantity`). -/
def Dec.mulInt (a : Dec) (k : ℤ) : Dec := ⟨a.c * k, a.s⟩

/-- The rational value of a decimal (used in specification statements). -/
def Dec.val (a : Dec) : ℚ := (a.c : ℚ) / (10 : ℚ) ^ a.s

/-- Fuel-driven floor of log2 (structural recursion so that the kernel can
evaluate it; `log2fuel n n` is exact for every `n`). -/
def log2fuel : ℕ → ℕ → ℕ
  | 0, _ => 0
  | fuel+1, n => if n ≤ 1 then 0 else log2fuel fuel (n / 2) + 1

/-- `⌊log2 n⌋` for `n ≥ 1` (0 at 0). -/
def natLog2 (n : ℕ) : ℕ := log2fuel n n

/-- Whether `2^c ≤ n / d` (for `n, d ≥ 1`), by cross-multiplication. -/
def pow2leB (c : ℤ) (n d : ℕ) : Bool :=
  if 0 ≤ c then decide (2 ^ c.toNat * d ≤ n) else decide (d ≤ n * 2 ^ (-c).toNat)

/-- Round the positive rational `n / d` to IEEE-754 binary64 (round to
nearest, ties to even), returned as a mantissa/exponent pair
`(m, e)` with value `m * 2^e` and `m ∈ [2^52, 2^53)`. -/
def roundPos (n d : ℕ) : ℤ × ℤ :=
  let c : ℤ := (natLog2 n : ℤ) - (natLog2 d : ℤ)
  let e : ℤ := if pow2leB c n d then c else c - 1
  let sh : ℤ := 52 - e
  let num2 : ℕ := if 0 ≤ sh then n * 2 ^ sh.toNat else n
  let den2 : ℕ := if 0 ≤ sh then d else d * 2 ^ (-sh).toNat
  let fl : ℕ := num2 / den2
  let r : ℕ := num2 % den2
  let m : ℕ :=
    if 2 * r < den2 then fl
    else if den2 < 2 * r then fl + 1
    else if fl % 2 = 0 then fl else fl + 1
  if m = 2 ^ 53 then ((2 ^ 52 : ℤ), e + 1 - 52) else ((m : ℤ), e - 52)

/-- Python `float(d)` for a `Decimal` `d`: the binary64 value nearest to
`d.c / 10^d.s`, as a sign-carrying mantissa/exponent pair. -/
def pyFloat (d : Dec) : ℤ × ℤ :=
  if d.c = 0 then (0, 0)
  else
    let p := roundPos d.c.natAbs (10 ^ d.s)
    (if d.c < 0 then -p.1 else p.1, p.2)

/-- Order.STATUS_CHOICES (src/apps/orders/models.py). -/
inductive OrderStatus
  | Pending | Processing | Shipped | Delivered | Completed | Refunded | Cancelled
deriving DecidableEq

/-- Transaction.STATUS_CHOICES (src/apps/orders/models.py). -/
inductive TxStatus
  | Success | Failed | Refunded | Pending
deriving DecidableEq

/-- Product row (src/apps/catalog/models.py); only the fields the core
reads or writes. -/
structure Product where
  id : ℕ
  name : String
  price : Dec
  stock_quantity : ℤ
  is_available : Bool
deriving DecidableEq

/-- CartItem row (src/apps/cart/models.py). -/
structure CartItem where
  user_id : ℕ
  product_id : ℕ
  quantity : ℤ
deriving DecidableEq

/-- Order row (src/apps/orders/models.py). -/
structure Order where
  id : ℕ
  user_id : ℕ
  total_amount : Dec
  status : OrderStatus
deriving DecidableEq

/-- OrderItem row (src/apps/orders/models.py). -/
structure OrderItem where
  order_id : ℕ
  product_id : ℕ
  quantity : ℤ
  price_at_purchase : Dec
deriving DecidableEq

/-- Transaction row (src/apps/orders/models.py). -/
structure Transaction where
  id : ℕ
  order_id : ℕ
  amount : Dec
  payment_method : String
  status : TxStatus
deriving DecidableEq

/-- The relational state the core reads and mutates. -/
structure DBState where
  products : List Product
  cartItems : List CartItem
  orders : List Order
  orderItems : List OrderItem
  transactions : List Transaction
  nextOrderId : ℕ
  nextTxId : ℕ
deriving DecidableEq

/-- `Order.can_be_paid` (src/apps/orders/models.py line 69). -/
def Order.can_be_paid (o : Order) : Bool :=
  o.status = OrderStatus.Pending ∨ o.status = OrderStatus.Cancelled

/-- `Transaction.can_be_refunded` (src/apps/orders/models.py line 182). -/
def Transaction.can_be_refunded (t : Transaction) : Bool :=
  t.status = TxStatus.Success

/-- Error raised by `Product.decrease_stock`: the message carries the
current availability and the requested quantity. -/
inductive StockErr
  | insufficient (available requested : ℤ)
deriving DecidableEq

/-- `Product.decrease_stock` (src/apps/catalog/models.py lines 132-140):
check, decrement, clear `is_available` on reaching 0; on failure the
product row is untouched. -/
def Product.decrease_stock (p : Product) (quantity : ℤ) : Option StockErr × Product :=
  if p.stock_quantity < quantity then
    (some (StockErr.insufficient p.stock_quantity quantity), p)
  else
    let q2 := p.stock_quantity - quantity
    (none, { p with stock_quantity := q2,
                    is_available := if q2 = 0 then false else p.is_available })

/-- `Product.increase_stock` (src/apps/catalog/models.py lines 142-147):
increment and set `is_available` (the source sets it to True whenever it
was False, so the stored value is always True afterwards). -/
def Product.increase_stock (p : Product) (quantity : ℤ) : Product :=
  { p with stock_quantity := p.stock_quantity + quantity, is_available := true }

/-- A stock-ledger operation as named by the spec (§4.1). -/
inductive StockOp
  | reserve (q : ℤ)
  | release (q : ℤ)
deriving DecidableEq

/-- The quantity carried by a stock operation. -/
def StockOp.qty : StockOp → ℤ
  | .reserve q => q
  | .release q => q

/-- Apply one stock operation to a product row (a failed reserve leaves
the row unchanged). -/
def applyOp (p : Product) : StockOp → Product
  | .reserve q => (p.decrease_stock q).2
  | .release q => p.increase_stock q

/-- Apply a sequence of stock operations. -/
def applyOps (p : Product) (ops : List StockOp) : Product :=
  ops.foldl applyOp p

/-- Look up a product row by primary key. -/
def prodOf (σ : DBState) (pid : ℕ) : Option Product :=
  σ.products.find? (fun p => p.id = pid)

/-- `CartService.get_cart(user)` (src/apps/cart/services.py line 27). -/
def getCart (σ : DBState) (user : ℕ) : List CartItem :=
  σ.cartItems.filter (fun c => c.user_id = user)

/-- Look up an order row by primary key. -/
def findOrder (σ : DBState) (oid : ℕ) : Option Order :=
  σ.orders.find? (fun o => o.id = oid)

/-- Look up a transaction row by primary key. -/
def findTx (σ : DBState) (tid : ℕ) : Option Transaction :=
  σ.transactions.find? (fun t => t.id = tid)

/-- The order items belonging to an order. -/
def itemsOf (σ : DBState) (oid : ℕ) : List OrderItem :=
  σ.orderItems.filter (fun it => it.order_id = oid)

/-- `Product.objects.filter(pk=pid).update(stock_quantity=v)`
(src/apps/orders/services.py lines 58-60): writes an absolute stock value
and touches no other column. -/
def updateStockAbs (σ : DBState) (pid : ℕ) (v : ℤ) : DBState :=
  { σ with products :=
      σ.products.map (fun p => if p.id = pid then { p with stock_quantity := v } else p) }

/-- Set the status column of one order row. -/
def setOrderStatus (σ : DBState) (oid : ℕ) (st : OrderStatus) : DBState :=
  { σ with orders :=
      σ.orders.map (fun o => if o.id = oid then { o with status := st } else o) }

/-- `order.save(update_fields=['total_amount'])` after assignment
(src/apps/orders/services.py lines 61-62). -/
def setOrderTotal (σ : DBState) (oid : ℕ) (t : Dec) : DBState :=
  { σ with orders :=
      σ.orders.map (fun o => if o.id = oid then { o with total_amount := t } else o) }

/-- `order.delete()` (src/apps/orders/services.py line 67); Django
cascades the delete to the order items. -/
def deleteOrder (σ : DBState) (oid : ℕ) : DBState :=
  { σ with orders := σ.orders.filter (fun o => o.id != oid),
           orderItems := σ.orderItems.filter (fun it => it.order_id != oid) }

/-- `CartItem.objects.filter(user=user).delete()`
(src/apps/orders/services.py lines 63-64): removes every cart line of the
buyer, whether or not it was part of the snapshot. -/
def clearUserCart (σ : DBState) (user : ℕ) : DBState :=
  { σ with cartItems := σ.cartItems.filter (fun c => c.user_id != user) }

/-- `OrderItem.objects.create(...)` (src/apps/orders/services.py lines 52-57). -/
def addOrderItem (σ : DBState) (it : OrderItem) : DBState :=
  { σ with orderItems := σ.orderItems ++ [it] }

/-- `Order.objects.create(user=user, total_amount=0, status='Pending')`
(src/apps/orders/services.py line 40). -/
def createOrderRow (σ : DBState) (user : ℕ) : DBState :=
  { σ with orders := σ.orders ++ [⟨σ.nextOrderId, user, Dec.zero, OrderStatus.Pending⟩],
           nextOrderId := σ.nextOrderId + 1 }

/-- Stock-ledger `release` on one product row of the state, via
`Product.increase_stock`. -/
def releaseStock (σ : DBState) (pid : ℕ) (q : ℤ) : DBState :=
  { σ with products :=
      σ.products.map (fun p => if p.id = pid then p.increase_stock q else p) }

/-- One error entry produced by `CartService.validate_cart`
(src/apps/cart/services.py lines 185-196); `brokenRef` marks a cart line
whose product row is missing, which Django's foreign-key constraint makes
unreachable. -/
inductive CartError
  | emptyCart
  | unavailable (name : String)
  | insufficient (name : String) (inCart available : ℤ)
  | brokenRef
deriving DecidableEq

/-- The per-item check of `CartService.validate_cart`
(src/apps/cart/services.py lines 189-196): an unavailable product is
reported first; only an available product is checked against stock. -/
def validateItem (σ : DBState) (it : CartItem) : Option CartError :=
  match prodOf σ it.product_id with
  | none => some CartError.brokenRef
  | some p =>
    if ¬ p.is_available then some (CartError.unavailable p.name)
    else if p.stock_quantity < it.quantity then
      some (CartError.insufficient p.name it.quantity p.stock_quantity)
    else none

/-- `CartService.validate_cart(user)` (src/apps/cart/services.py
lines 166-198): returns `(is_valid, errors)`. -/
def validate_cart (σ : DBState) (user : ℕ) : Bool × List CartError :=
  let items := getCart σ user
  if items.isEmpty then (false, [CartError.emptyCart])
  else
    let errors := items.filterMap (validateItem σ)
    (errors.isEmpty, errors)

/-- The exceptions `OrderService.create_order_from_cart` can surface:
`validation` wraps the error list of a failed `validate_cart`
(`ValueError('; '.join(errors))`), `emptyCart` and `insufficientStock` are
raised by the fallback body, `persistence` stands for an injected
infrastructure failure, and `brokenRef` for a missing foreign key
(unreachable under Django's constraints). -/
inductive OrderError
  | validation (errs : List CartError)
  | emptyCart
  | insufficientStock (name : String) (inCart available : ℤ)
  | persistence
  | brokenRef
deriving DecidableEq

/-- Pair each cart line with its product row, as materialised by
`list(CartService.get_cart(user))` with `select_related('product')`
(src/apps/orders/services.py line 36). -/
def attachProducts (σ : DBState) : List CartItem → Option (List (CartItem × Product))
  | [] => some []
  | it :: rest =>
    match prodOf σ it.product_id, attachProducts σ rest with
    | some p, some l => some ((it, p) :: l)
    | _, _ => none

/-- The per-line loop of `_create_order_from_cart_python`
(src/apps/orders/services.py lines 42-60): check the snapshotted stock,
accumulate the total from the snapshotted price, create the order item,
write the decremented stock.  `failAt = some i` injects a persistence
failure in place of the creation of item `i`. -/
def processItems (failAt : Option ℕ) (oid : ℕ) :
    List (CartItem × Product) → ℕ → DBState → Dec → (Except OrderError Unit) × DBState × Dec
  | [], _, σ, tot => (Except.ok (), σ, tot)
  | (item, product) :: rest, i, σ, tot =>
    if product.stock_quantity < item.quantity then
      (Except.error (OrderError.insufficientStock product.name item.quantity product.stock_quantity),
       σ, tot)
    else
      let price := product.price
      let subtotal := price.mulInt item.quantity
      let tot2 := tot.add subtotal
      if failAt = some i then
        (Except.error OrderError.persistence, σ, tot2)
      else
        let σ2 := addOrderItem σ ⟨oid, product.id, item.quantity, price⟩
        let σ3 := updateStockAbs σ2 product.id (product.stock_quantity - item.quantity)
        processItems failAt oid rest (i + 1) σ3 tot2

/-- The body of `_create_order_from_cart_python` from line 37 on
(src/apps/orders/services.py lines 37-68), taking the already-materialised
cart snapshot as an argument: the snapshot is read once at line 36, while
the final cart clear at line 64 re-queries live cart storage, so the two
can disagree when the cart is mutated concurrently.  On an exception the
order row is deleted (line 67) and the error is re-raised; stock writes
already performed are not undone here (the caller's transaction handles
that). -/
def createOrderWithSnapshot (failAt : Option ℕ) (user : ℕ)
    (snap : List (CartItem × Product)) (σ : DBState) :
    (Except OrderError (ℕ × Dec)) × DBState :=
  if snap.isEmpty then (Except.error OrderError.emptyCart, σ)
  else
    let oid := σ.nextOrderId
    let σ0 := createOrderRow σ user
    match processItems failAt oid snap 0 σ0 Dec.zero with
    | (Except.error e, σd, _) => (Except.error e, deleteOrder σd oid)
    | (Except.ok _, σd, tot) =>
      let σ1 := setOrderTotal σd oid tot
      let σ2 := clearUserCart σ1 user
      (Except.ok (oid, tot), σ2)

/-- `_create_order_from_cart_python(user)` (src/apps/orders/services.py
lines 31-68): snapshot the cart, then run the body on the snapshot. -/
def createOrderFromCartPython (failAt : Option ℕ) (user : ℕ) (σ : DBState) :
    (Except OrderError (ℕ × Dec)) × DBState :=
  match attachProducts σ (getCart σ user) with
  | none => (Except.error OrderError.brokenRef, σ)
  | some snap => createOrderWithSnapshot failAt user snap σ

/-- `OrderService.create_order_from_cart(user)` (src/apps/orders/services.py
lines 74-109), on the Python-fallback path: validate the cart, then run
the fallback; the whole call is wrapped in `@transaction.atomic`, so when
the body raises, the caller observes the pre-call state. -/
def create_order_from_cart (failAt : Option ℕ) (user : ℕ) (σ : DBState) :
    (Except OrderError (ℕ × Dec)) × DBState :=
  let v := validate_cart σ user
  if v.1 then
    match createOrderFromCartPython failAt user σ with
    | (Except.error e, _) => (Except.error e, σ)
    | (Except.ok r, σ2) => (Except.ok r, σ2)
  else (Except.error (OrderError.validation v.2), σ)

/-- The errors of the payment workflow (`create_payment_view` plus
`PaymentService.create_payment`): order missing, order not in a payable
state (view guard), or amount mismatch (`ValueError` in the service). -/
inductive PayError
  | orderNotFound
  | orderNotPayable
  | invalidAmount
deriving DecidableEq

/-- `PaymentService.create_payment(order_id, amount, payment_method)`
(src/apps/orders/services.py lines 199-265), Python-fallback path: fetch
the order (`Order.DoesNotExist` becomes `orderNotFound`), compare
`float(amount) != float(order.total_amount)`, and on success create a
Success transaction and set the order to Completed; the method is wrapped
in `@transaction.atomic`, and every error path leaves the state as it
was. -/
def create_payment (oid : ℕ) (amount : Dec) (method : String) (σ : DBState) :
    (Except PayError (ℕ × TxStatus)) × DBState :=
  match findOrder σ oid with
  | none => (Except.error PayError.orderNotFound, σ)
  | some o =>
    if pyFloat amount ≠ pyFloat o.total_amount then
      (Except.error PayError.invalidAmount, σ)
    else
      let txId := σ.nextTxId
      let σ1 := { σ with
        transactions := σ.transactions ++ [⟨txId, oid, amount, method, TxStatus.Success⟩],
        nextTxId := txId + 1 }
      let σ2 := setOrderStatus σ1 oid OrderStatus.Completed
      (Except.ok (txId, TxStatus.Success), σ2)

/-- The `pay` operation as exposed to buyers: `create_payment_view`
(src/apps/orders/views.py lines 179-331) fetches the order, rejects it
when `order.can_be_paid()` is false, and only then calls
`PaymentService.create_payment`.  The card-handling and delivery-address
bookkeeping of the view are out of the core's scope and not modelled. -/
def pay (oid : ℕ) (amount : Dec) (method : String) (σ : DBState) :
    (Except PayError (ℕ × TxStatus)) × DBState :=
  match findOrder σ oid with
  | none => (Except.error PayError.orderNotFound, σ)
  | some o =>
    if ¬ o.can_be_paid then (Except.error PayError.orderNotPayable, σ)
    else create_payment oid amount method σ

/-- A sequence of `pay` calls: each entry is (order id, amount, method). -/
def paySeq (calls : List (ℕ × Dec × String)) (σ : DBState) : DBState :=
  calls.foldl (fun s c => (pay c.1 c.2.1 c.2.2 s).2) σ

/-- Number of transactions of an order whose status is Success. -/
def successCount (σ : DBState) (oid : ℕ) : ℕ :=
  (σ.transactions.filter (fun t => t.order_id = oid ∧ t.status = TxStatus.Success)).length

/-- The status column of an order row, if the row exists. -/
def orderStatus (σ : DBState) (oid : ℕ) : Option OrderStatus :=
  (findOrder σ oid).map (fun o => o.status)

/-- The status column of a transaction row, if the row exists. -/
def txStatus (σ : DBState) (tid : ℕ) : Option TxStatus :=
  (findTx σ tid).map (fun t => t.status)

/-- The errors of the refund workflow. -/
inductive RefundError
  | notFound
  | notRefundable
deriving DecidableEq

/-- Total quantity of the given order lines that refer to product `pid`. -/
def releasedQty (lines : List OrderItem) (pid : ℕ) : ℤ :=
  ((lines.filter (fun it => it.product_id = pid)).map (fun it => it.quantity)).sum

/-- Modelled from the spec: `PaymentService.refund_transaction`
(src/apps/orders/services.py lines 314-376) only invokes the PostgreSQL
function `refund_transaction` via `callproc`, and that function's body is
not part of the repository sources.  Its semantics are taken from the
spec, §4.4 refund contract: only a Success transaction may be refunded
(the guard is `Transaction.can_be_refunded` from src/apps/orders/models.py,
also enforced by `refund_transaction_view` in src/apps/orders/views.py
lines 397-401); on success the transaction becomes Refunded, the owning
order becomes Refunded, and `release` is called for every line item of
the order, all as one atomic unit. -/
def refund_transaction (tid : ℕ) (σ : DBState) :
    (Except RefundError Unit) × DBState :=
  match findTx σ tid with
  | none => (Except.error RefundError.notFound, σ)
  | some tx =>
    if ¬ tx.can_be_refunded then (Except.error RefundError.notRefundable, σ)
    else
      let σ1 := { σ with transactions :=
        σ.transactions.map (fun t => if t.id = tid then { t with status := TxStatus.Refunded } else t) }
      let σ2 := setOrderStatus σ1 tx.order_id OrderStatus.Refunded
      let σ3 := (itemsOf σ tx.order_id).foldl
        (fun s it => releaseStock s it.product_id it.quantity) σ2
      (Except.ok (), σ3)

/-- The order item created for one snapshot line
(src/apps/orders/services.py lines 52-57). -/
def mkItem (oid : ℕ) (x : CartItem × Product) : OrderItem :=
  ⟨oid, x.2.id, x.1.quantity, x.2.price⟩

/-- The columns of a product row that the order-creation loop never
writes (everything except `stock_quantity`). -/
def prodMeta (p : Product) : ℕ × String × Dec × Bool :=
  (p.id, p.name, p.price, p.is_available)

/-- Concrete product row used by witnesses. -/
def pw : Product := ⟨1, "A", ⟨5, 0⟩, 10, true⟩

/-- Concrete state: one product, one cart line of buyer 1. -/
def σw : DBState := ⟨[pw], [⟨1, 1, 2⟩], [], [], [], 1, 1⟩

/-- Concrete state: product with stock 2 and a cart line taking all of it. -/
def σ7 : DBState := ⟨[⟨1, "A", ⟨5, 0⟩, 2, true⟩], [⟨1, 1, 2⟩], [], [], [], 1, 1⟩

/-- Concrete state: buyer 1 has two cart lines (products 1 and 2). -/
def σ9 : DBState :=
  ⟨[⟨1, "A", ⟨5, 0⟩, 3, true⟩, ⟨2, "B", ⟨7, 0⟩, 3, true⟩],
   [⟨1, 1, 1⟩, ⟨1, 2, 1⟩], [], [], [], 1, 1⟩

/-- Concrete state: the cart line's product is flagged unavailable while
its stock (10) amply covers the requested quantity (2). -/
def σ10 : DBState := ⟨[⟨1, "A", ⟨5, 0⟩, 10, false⟩], [⟨1, 1, 2⟩], [], [], [], 1, 1⟩

/-- Concrete state: a Pending order with total `Decimal('0.10')`. -/
def σ2c : DBState := ⟨[], [], [⟨1, 1, ⟨10, 2⟩, OrderStatus.Pending⟩], [], [], 2, 1⟩

/-- The decimal expansion of the binary64 value nearest to 0.1:
`0.1000000000000000055511151231257827021181583404541015625`
(= 3602879701896397 / 2^55, written with denominator 10^55).  Its value
differs from `Decimal('0.10')` but `float` maps both to the same
binary64. -/
def a0 : Dec := ⟨3602879701896397 * 5 ^ 55, 55⟩

/-- Concrete state for the refund scenario: a Completed order for 2 units
of product 1 (stock already decremented to 8) with one Success
transaction. -/
def σ6 : DBState :=
  ⟨[⟨1, "A", ⟨100000, 2⟩, 8, true⟩], [],
   [⟨1, 1, ⟨200000, 2⟩, OrderStatus.Completed⟩],
   [⟨1, 1, 2, ⟨100000, 2⟩⟩],
   [⟨1, 1, ⟨200000, 2⟩, "Card", TxStatus.Success⟩], 2, 2⟩

lemma Dec.val_add (a b : Dec) : (a.add b).val = a.val + b.val := by
  unfold Dec.add Dec.val
  split
  case isTrue hle =>
    have h10 : ((10 : ℚ) ^ b.s) = 10 ^ (b.s - a.s) * 10 ^ a.s := by
      rw [← pow_add, Nat.sub_add_cancel hle]
    have ha : ((10 : ℚ) ^ a.s) ≠ 0 := pow_ne_zero _ (by norm_num)
    have hd : ((10 : ℚ) ^ (b.s - a.s)) ≠ 0 := pow_ne_zero _ (by norm_num)
    push_cast
    rw [h10]
    field_simp
    ring
  case isFalse hlt =>
    have hle : b.s ≤ a.s := le_of_not_le (fun h => hlt h)
    have h10 : ((10 : ℚ) ^ a.s) = 10 ^ (a.s - b.s) * 10 ^ b.s := by
      rw [← pow_add, Nat.sub_add_cancel hle]
    have hb : ((10 : ℚ) ^ b.s) ≠ 0 := pow_ne_zero _ (by norm_num)
    have hd : ((10 : ℚ) ^ (a.s - b.s)) ≠ 0 := pow_ne_zero _ (by norm_num)
    push_cast
    rw [h10]
    field_simp
    ring

lemma Dec.val_mulInt (a : Dec) (k : ℤ) : (a.mulInt k).val = a.val * k := by
  unfold Dec.mulInt Dec.val
  push_cast
  ring

lemma Dec.val_eq_iff (a b : Dec) :
    a.val = b.val ↔ a.c * (10 : ℤ) ^ b.s = b.c * 10 ^ a.s := by
  unfold Dec.val
  rw [div_eq_div_iff (pow_ne_zero _ (by norm_num)) (pow_ne_zero _ (by norm_num))]
  constructor <;> intro h <;> exact_mod_cast h

lemma findOrder_id {σ : DBState} {oid : ℕ} {o : Order}
    (h : findOrder σ oid = some o) : o.id = oid := by
  have := List.find?_some h
  simpa using this

lemma findOrder_setOrderStatus (σ : DBState) (oid2 : ℕ) (st : OrderStatus) (oid : ℕ) :
    findOrder (setOrderStatus σ oid2 st) oid =
      (findOrder σ oid).map (fun o => if o.id = oid2 then { o with status := st } else o) := by
  unfold findOrder setOrderStatus
  have hfun :
      ((fun o : Order => decide (o.id = oid)) ∘
        (fun o => if o.id = oid2 then { o with status := st } else o)) =
      (fun o : Order => decide (o.id = oid)) := by
    funext o
    by_cases h : o.id = oid2 <;> simp [h]
  rw [List.find?_map, hfun]

lemma findTx_mapRefund (σ : DBState) (tid2 tid : ℕ) :
    (σ.transactions.map
        (fun t => if t.id = tid2 then { t with status := TxStatus.Refunded } else t)).find?
        (fun t => t.id = tid) =
      (σ.transactions.find? (fun t => t.id = tid)).map
        (fun t => if t.id = tid2 then { t with status := TxStatus.Refunded } else t) := by
  have hfun :
      ((fun t : Transaction => decide (t.id = tid)) ∘
        (fun t => if t.id = tid2 then { t with status := TxStatus.Refunded } else t)) =
      (fun t : Transaction => decide (t.id = tid)) := by
    funext t
    by_cases h : t.id = tid2 <;> simp [h]
  rw [List.find?_map, hfun]

lemma processItems_ok (failAt : Option ℕ) (oid : ℕ)
    (snap : List (CartItem × Product)) :
    ∀ (i : ℕ) (σ : DBState) (tot : Dec) (σ2 : DBState) (tot2 : Dec),
      processItems failAt oid snap i σ tot = (Except.ok (), σ2, tot2) →
      σ2.orderItems = σ.orderItems ++ snap.map (mkItem oid) ∧
      tot2 = snap.foldl (fun t x => t.add (x.2.price.mulInt x.1.quantity)) tot ∧
      σ2.orders = σ.orders ∧
      σ2.cartItems = σ.cartItems ∧
      σ2.transactions = σ.transactions ∧
      σ2.nextOrderId = σ.nextOrderId ∧
      σ2.nextTxId = σ.nextTxId ∧
      σ2.products.map prodMeta = σ.products.map prodMeta := by
  induction snap with
  | nil =>
    intro i σ tot σ2 tot2 h
    simp only [processItems, Prod.mk.injEq] at h
    obtain ⟨-, hσ, htot⟩ := h
    subst hσ htot
    simp
  | cons x rest ih =>
    obtain ⟨item, product⟩ := x
    intro i σ tot σ2 tot2 h
    simp only [processItems] at h
    split at h
    · simp at h
    · split at h
      · simp at h
      · obtain ⟨hA, hB, hC, hD, hE, hF, hG, hH⟩ := ih (i + 1) _ _ σ2 tot2 h
        have hmeta :
            ((addOrderItem σ (mkItem oid (item, product))).products.map
              (fun p => if p.id = product.id then
                { p with stock_quantity := product.stock_quantity - item.quantity } else p)).map
                prodMeta
              = σ.products.map prodMeta := by
          rw [List.map_map]
          apply List.map_congr_left
          intro p _
          by_cases hid : p.id = product.id <;> simp [prodMeta, hid, addOrderItem]
        refine ⟨?_, ?_, ?_, ?_, ?_, ?_, ?_, ?_⟩
        · rw [hA]
          simp [updateStockAbs, addOrderItem, mkItem]
        · rw [hB]; rfl
        · rw [hC]; rfl
        · rw [hD]; rfl
        · rw [hE]; rfl
        · rw [hF]; rfl
        · rw [hG]; rfl
        · rw [hH]
          simpa [updateStockAbs, addOrderItem] using hmeta

lemma foldl_add_val (snap : List (CartItem × Product)) :
    ∀ t : Dec,
      (snap.foldl (fun t x => t.add (x.2.price.mulInt x.1.quantity)) t).val
        = t.val + ((snap.map (fun x => (x.1.quantity : ℚ) * x.2.price.val)).sum : ℚ) := by
  induction snap with
  | nil => intro t; simp
  | cons x rest ih =>
    intro t
    simp only [List.foldl_cons, List.map_cons, List.sum_cons]
    rw [ih, Dec.val_add, Dec.val_mulInt]
    ring

lemma create_order_ok {failAt : Option ℕ} {user : ℕ} {σ : DBState}
    {oid : ℕ} {tot : Dec} {σ2 : DBState}
    (h : create_order_from_cart failAt user σ = (Except.ok (oid, tot), σ2)) :
    ∃ snap, attachProducts σ (getCart σ user) = some snap ∧
      createOrderWithSnapshot failAt user snap σ = (Except.ok (oid, tot), σ2) := by
  unfold create_order_from_cart at h
  simp only [] at h
  split at h
  · split at h
    · simp at h
    · next r σ3 heq =>
      simp only [Prod.mk.injEq, Except.ok.injEq] at h
      obtain ⟨hr, hσ⟩ := h
      subst hr hσ
      unfold createOrderFromCartPython at heq
      split at heq
      · simp at heq
      · next snap hsnap => exact ⟨snap, hsnap, heq⟩
  · simp at h

lemma createOrderWithSnapshot_ok {failAt : Option ℕ} {user : ℕ}
    {snap : List (CartItem × Product)} {σ : DBState}
    {oid : ℕ} {tot : Dec} {σ2 : DBState}
    (h : createOrderWithSnapshot failAt user snap σ = (Except.ok (oid, tot), σ2)) :
    oid = σ.nextOrderId ∧
    ∃ σd, processItems failAt σ.nextOrderId snap 0 (createOrderRow σ user) Dec.zero
            = (Except.ok (), σd, tot) ∧
      σ2 = clearUserCart (setOrderTotal σd σ.nextOrderId tot) user := by
  unfold createOrderWithSnapshot at h
  simp only [] at h
  split at h
  · simp at h
  · split at h
    · simp at h
    · next u σd tot3 heq =>
      simp only [Prod.mk.injEq, Except.ok.injEq] at h
      obtain ⟨⟨hoid, htot⟩, hσ⟩ := h
      subst hoid htot
      exact ⟨rfl, σd, by rw [heq], hσ.symm⟩

lemma releasedQty_nil (pid : ℕ) : releasedQty [] pid = 0 := by
  simp [releasedQty]

lemma releasedQty_cons (it : OrderItem) (rest : List OrderItem) (pid : ℕ) :
    releasedQty (it :: rest) pid =
      (if it.product_id = pid then it.quantity else 0) + releasedQty rest pid := by
  unfold releasedQty
  by_cases h : it.product_id = pid <;> simp [h]

lemma releaseFold_products (lines : List OrderItem) :
    ∀ σ : DBState,
      ((lines.foldl (fun s it => releaseStock s it.product_id it.quantity) σ).products).map
          (fun p => (p.id, p.stock_quantity))
        = σ.products.map (fun p => (p.id, p.stock_quantity + releasedQty lines p.id)) := by
  induction lines with
  | nil =>
    intro σ
    simp only [List.foldl_nil]
    apply List.map_congr_left
    intro p _
    simp [releasedQty_nil]
  | cons it rest ih =>
    intro σ
    simp only [List.foldl_cons]
    rw [ih]
    simp only [releaseStock]
    rw [List.map_map]
    apply List.map_congr_left
    intro p _
    by_cases hid : p.id = it.product_id
    · simp [Function.comp, hid, Product.increase_stock, releasedQty_cons, add_assoc]
    · simp only [Function.comp, if_neg hid, releasedQty_cons]
      rw [if_neg (fun h => hid h.symm)]
      simp

lemma releaseFold_frame (lines : List OrderItem) :
    ∀ σ : DBState,
      (lines.foldl (fun s it => releaseStock s it.product_id it.quantity) σ).orders = σ.orders ∧
      (lines.foldl (fun s it => releaseStock s it.product_id it.quantity) σ).transactions
        = σ.transactions := by
  induction lines with
  | nil => intro σ; exact ⟨rfl, rfl⟩
  | cons it rest ih =>
    intro σ
    simp only [List.foldl_cons]
    exact ih (releaseStock σ it.product_id it.quantity)

lemma orderStatus_setOrderStatus_self (σ : DBState) (oid : ℕ) (st : OrderStatus) (o : Order)
    (h : findOrder σ oid = some o) :
    orderStatus (setOrderStatus σ oid st) oid = some st := by
  unfold orderStatus
  rw [findOrder_setOrderStatus, h]
  simp [findOrder_id h]

lemma orderStatus_setOrderStatus_other (σ : DBState) (oid2 oid : ℕ) (st : OrderStatus)
    (hne : oid ≠ oid2) :
    orderStatus (setOrderStatus σ oid2 st) oid = orderStatus σ oid := by
  unfold orderStatus
  rw [findOrder_setOrderStatus]
  cases hf : findOrder σ oid with
  | none => rfl
  | some o => simp [findOrder_id hf, hne]

lemma pay_inv_step (σ : DBState) (oid oid2 : ℕ) (a : Dec) (m : String)
    (h1 : successCount σ oid ≤ 1)
    (h2 : successCount σ oid = 1 → orderStatus σ oid = some OrderStatus.Completed) :
    successCount (pay oid2 a m σ).2 oid ≤ 1 ∧
    (successCount (pay oid2 a m σ).2 oid = 1 →
      orderStatus (pay oid2 a m σ).2 oid = some OrderStatus.Completed) := by
  rcases hfo : findOrder σ oid2 with _ | o
  · have hred : pay oid2 a m σ = (Except.error PayError.orderNotFound, σ) := by
      unfold pay
      rw [hfo]
    rw [hred]
    exact ⟨h1, h2⟩
  · by_cases hp : o.can_be_paid = true
    case neg =>
      have hred : pay oid2 a m σ = (Except.error PayError.orderNotPayable, σ) := by
        unfold pay
        rw [hfo]
        simp [hp]
      rw [hred]
      exact ⟨h1, h2⟩
    case pos =>
      by_cases heq : pyFloat a = pyFloat o.total_amount
      case neg =>
        have hred : pay oid2 a m σ = (Except.error PayError.invalidAmount, σ) := by
          unfold pay create_payment
          rw [hfo]
          simp [hp, heq]
        rw [hred]
        exact ⟨h1, h2⟩
      case pos =>
        have hred : pay oid2 a m σ =
            (Except.ok (σ.nextTxId, TxStatus.Success),
             setOrderStatus
               { σ with
                  transactions :=
                    σ.transactions ++ [⟨σ.nextTxId, oid2, a, m, TxStatus.Success⟩],
                  nextTxId := σ.nextTxId + 1 } oid2 OrderStatus.Completed) := by
          unfold pay create_payment
          rw [hfo]
          simp [hp, heq]
        rw [hred]
        set tx : Transaction := ⟨σ.nextTxId, oid2, a, m, TxStatus.Success⟩ with htx
        set σ1 : DBState :=
          { σ with transactions := σ.transactions ++ [tx], nextTxId := σ.nextTxId + 1 } with hσ1
        have htrans : (setOrderStatus σ1 oid2 OrderStatus.Completed).transactions
            = σ.transactions ++ [tx] := rfl
        have hcount : successCount (setOrderStatus σ1 oid2 OrderStatus.Completed) oid
            = successCount σ oid + (if oid2 = oid then 1 else 0) := by
          unfold successCount
          rw [htrans, List.filter_append]
          by_cases hoid : oid2 = oid <;> simp [hoid, htx]
        have hfo1 : findOrder σ1 oid2 = some o := hfo
        by_cases hoid : oid2 = oid
        · subst hoid
          have hstat : o.status = OrderStatus.Pending ∨ o.status = OrderStatus.Cancelled := by
            have hp2 := hp
            unfold Order.can_be_paid at hp2
            simpa using hp2
          have hzero : successCount σ oid2 = 0 := by
            rcases Nat.lt_or_ge (successCount σ oid2) 1 with h | h
            · omega
            · exfalso
              have hone : successCount σ oid2 = 1 := by omega
              have hcc := h2 hone
              have hos : orderStatus σ oid2 = some o.status := by
                unfold orderStatus
                rw [hfo]
                rfl
              rw [hos] at hcc
              rcases hstat with hs | hs <;> rw [hs] at hcc <;> simp at hcc
          rw [hcount, hzero]
          refine ⟨by simp, fun _ => ?_⟩
          exact orderStatus_setOrderStatus_self σ1 oid2 OrderStatus.Completed o hfo1
        · rw [hcount]
          rw [if_neg hoid]
          have hos : orderStatus (setOrderStatus σ1 oid2 OrderStatus.Completed) oid
              = orderStatus σ oid := by
            rw [orderStatus_setOrderStatus_other σ1 oid2 oid OrderStatus.Completed
              (fun h => hoid h.symm)]
            rfl
          rw [hos]
          exact ⟨by omega, h2⟩

lemma paySeq_inv (calls : List (ℕ × Dec × String)) :
    ∀ (σ : DBState) (oid : ℕ),
      successCount σ oid ≤ 1 →
      (successCount σ oid = 1 → orderStatus σ oid = some OrderStatus.Completed) →
      successCount (paySeq calls σ) oid ≤ 1 ∧
      (successCount (paySeq calls σ) oid = 1 →
        orderStatus (paySeq calls σ) oid = some OrderStatus.Completed) := by
  induction calls with
  | nil => intro σ oid h1 h2; exact ⟨h1, h2⟩
  | cons c rest ih =>
    intro σ oid h1 h2
    obtain ⟨h1', h2'⟩ := pay_inv_step σ oid c.1 c.2.1 c.2.2 h1 h2
    exact ih (pay c.1 c.2.1 c.2.2 σ).2 oid h1' h2'

/-- Claim C1: if `create_order_from_cart` fails for any reason (empty
cart, insufficient stock for some line, a validation error, or an
injected persistence failure after some lines were already processed),
then after the call no Order row, no OrderLine row and no stock decrement
persists: the whole database state, products and order store included, is
exactly the pre-call state. -/
theorem claim1_order_creation_rollback (failAt : Option ℕ) (user : ℕ) (σ : DBState)
    (e : OrderError) (σ2 : DBState)
    (h : create_order_from_cart failAt user σ = (Except.error e, σ2)) :
    σ2 = σ := by
  unfold create_order_from_cart at h
  simp only [] at h
  split at h
  · split at h
    · simp only [Prod.mk.injEq] at h
      exact h.2.symm
    · simp at h
  · simp only [Prod.mk.injEq] at h
    exact h.2.symm

/-- Witness for C1: a persistence failure injected while processing the
first cart line makes the call fail, and the state afterwards is the
pre-call state. -/
theorem claim1_witness :
    (create_order_from_cart (some 0) 1 σw).2 = σw :=
  claim1_order_creation_rollback (some 0) 1 σw OrderError.persistence
    (create_order_from_cart (some 0) 1 σw).2 (by decide)

/-- Claim C8: if the buyer's cart contains no lines,
`create_order_from_cart` fails with the empty-cart error and nothing else
executes: no Order is created, no stock is mutated, and the cart is
unchanged (the returned state is exactly the input state). -/
theorem claim8_empty_cart (failAt : Option ℕ) (user : ℕ) (σ : DBState)
    (h : getCart σ user = []) :
    create_order_from_cart failAt user σ =
      (Except.error (OrderError.validation [CartError.emptyCart]), σ) := by
  unfold create_order_from_cart validate_cart
  rw [h]
  simp

/-- Witness for C8: buyer 2 has no cart lines in `σw`. -/
theorem claim8_witness :
    create_order_from_cart none 2 σw =
      (Except.error (OrderError.validation [CartError.emptyCart]), σw) :=
  claim8_empty_cart none 2 σw (by decide)

/-- Claim C10: beyond the empty-cart and insufficient-stock errors, if
any cart line's product has its availability flag (`is_available`) set to
false, `create_order_from_cart` fails before any mutation — with an error
naming the unavailable product — regardless of how much stock the product
has. -/
theorem claim10_unavailable_product (failAt : Option ℕ) (user : ℕ) (σ : DBState)
    (it : CartItem) (p : Product)
    (hmem : it ∈ getCart σ user)
    (hp : prodOf σ it.product_id = some p)
    (hav : p.is_available = false) :
    ∃ errs, create_order_from_cart failAt user σ =
        (Except.error (OrderError.validation errs), σ) ∧
      CartError.unavailable p.name ∈ errs := by
  have hv : validateItem σ it = some (CartError.unavailable p.name) := by
    unfold validateItem
    rw [hp]
    simp [hav]
  have hmem2 : CartError.unavailable p.name ∈ (getCart σ user).filterMap (validateItem σ) :=
    List.mem_filterMap.mpr ⟨it, hmem, hv⟩
  refine ⟨(getCart σ user).filterMap (validateItem σ), ?_, hmem2⟩
  have hne : (getCart σ user).isEmpty = false := by
    cases hgc : getCart σ user with
    | nil => rw [hgc] at hmem; exact absurd hmem (List.not_mem_nil it)
    | cons a l => rfl
  have hne2 : ((getCart σ user).filterMap (validateItem σ)).isEmpty = false := by
    cases hfc : (getCart σ user).filterMap (validateItem σ) with
    | nil => rw [hfc] at hmem2; exact absurd hmem2 (List.not_mem_nil _)
    | cons a l => rfl
  unfold create_order_from_cart validate_cart
  simp [hne, hne2]

/-- Witness for C10: in `σ10` the product is flagged unavailable while
its stock (10) covers the requested quantity (2); order creation fails
with an error naming the product and leaves the state untouched. -/
theorem claim10_witness :
    ∃ errs, create_order_from_cart none 1 σ10 =
        (Except.error (OrderError.validation errs), σ10) ∧
      CartError.unavailable "A" ∈ errs :=
  claim10_unavailable_product none 1 σ10 ⟨1, 1, 2⟩ ⟨1, "A", ⟨5, 0⟩, 10, false⟩
    (by decide) (by decide) rfl

/-- Claim C4: the stock-ledger reserve (`Product.decrease_stock`) for
quantity `q` succeeds and decrements `stock_quantity` by exactly `q` if
and only if `stock_quantity ≥ q`; otherwise it fails reporting the
current available quantity and leaves the row unmutated; consequently the
stock is never negative after any sequence of reserve/release operations
with nonnegative quantities. -/
theorem claim4_stock_reserve :
    (∀ (p : Product) (q : ℤ), (p.decrease_stock q).1 = none ↔ q ≤ p.stock_quantity) ∧
    (∀ (p : Product) (q : ℤ), q ≤ p.stock_quantity →
      (p.decrease_stock q).2.stock_quantity = p.stock_quantity - q) ∧
    (∀ (p : Product) (q : ℤ), p.stock_quantity < q →
      p.decrease_stock q = (some (StockErr.insufficient p.stock_quantity q), p)) ∧
    (∀ (p : Product) (ops : List StockOp), 0 ≤ p.stock_quantity →
      (∀ op ∈ ops, 0 ≤ op.qty) → 0 ≤ (applyOps p ops).stock_quantity) := by
  refine ⟨?_, ?_, ?_, ?_⟩
  · intro p q
    unfold Product.decrease_stock
    constructor
    · intro h
      by_contra hlt
      rw [if_pos (by omega)] at h
      simp at h
    · intro h
      rw [if_neg (by omega)]
  · intro p q h
    unfold Product.decrease_stock
    rw [if_neg (by omega)]
  · intro p q h
    unfold Product.decrease_stock
    rw [if_pos h]
  · intro p ops
    induction ops generalizing p with
    | nil => intro h _; simpa [applyOps] using h
    | cons op rest ih =>
      intro h hq
      have hstep : 0 ≤ (applyOp p op).stock_quantity := by
        cases op with
        | reserve q =>
          simp only [applyOp]
          unfold Product.decrease_stock
          by_cases hlt : p.stock_quantity < q
          · rw [if_pos hlt]
            exact h
          · rw [if_neg hlt]
            simp only []
            omega
        | release q =>
          have hq0 : (0 : ℤ) ≤ q := hq (StockOp.release q) (by simp)
          simp only [applyOp]
          unfold Product.increase_stock
          simp only []
          omega
      have hrest : ∀ op' ∈ rest, 0 ≤ op'.qty :=
        fun op' h' => hq op' (List.mem_cons_of_mem _ h')
      have := ih (applyOp p op) hstep hrest
      simpa [applyOps, List.foldl_cons] using this

/-- Witness for C4: a successful reserve of 3 out of 10 decrements by 3,
a reserve of 99 fails reporting the stock and leaving the row unchanged,
and stock stays nonnegative over a reserve/release sequence. -/
theorem claim4_witness :
    (pw.decrease_stock 3).2.stock_quantity = pw.stock_quantity - 3 ∧
    pw.decrease_stock 99 = (some (StockErr.insufficient pw.stock_quantity 99), pw) ∧
    0 ≤ (applyOps pw [StockOp.reserve 3, StockOp.release 1]).stock_quantity :=
  ⟨claim4_stock_reserve.2.1 pw 3 (by decide),
   claim4_stock_reserve.2.2.1 pw 99 (by decide),
   claim4_stock_reserve.2.2.2 pw [StockOp.reserve 3, StockOp.release 1]
     (by decide) (by decide)⟩

/-- Claim C2 (amended): `PaymentService.create_payment` accepts a payment
exactly when the binary64 (`float`) conversions of the amount and of the
order's `total_amount` coincide — the source compares
`float(amount) != float(order.total_amount)`, not exact decimal equality;
any amount whose `float` value differs fails with the invalid-amount
error before any mutation, creating no Transaction row and changing no
state, and an accepted amount creates exactly one Success transaction. -/
theorem claim2_payment_amount_check :
    (∀ (σ : DBState) (oid : ℕ) (a : Dec) (m : String) (o : Order),
      findOrder σ oid = some o → pyFloat a ≠ pyFloat o.total_amount →
      create_payment oid a m σ = (Except.error PayError.invalidAmount, σ)) ∧
    (∀ (σ : DBState) (oid : ℕ) (a : Dec) (m : String) (o : Order),
      findOrder σ oid = some o → pyFloat a = pyFloat o.total_amount →
      create_payment oid a m σ =
        (Except.ok (σ.nextTxId, TxStatus.Success),
         setOrderStatus
           { σ with
              transactions := σ.transactions ++ [⟨σ.nextTxId, oid, a, m, TxStatus.Success⟩],
              nextTxId := σ.nextTxId + 1 } oid OrderStatus.Completed)) := by
  constructor
  · intro σ oid a m o hfo hne
    unfold create_payment
    rw [hfo]
    simp [hne]
  · intro σ oid a m o hfo heq
    unfold create_payment
    rw [hfo]
    simp [heq]

/-- Counterexample to C2 as stated: the amount `a0`
(`0.1000000000000000055511151231257827021181583404541015625`) is not
equal to the order total `Decimal('0.10')` as a decimal value, yet
`create_payment` accepts it — both have the same binary64 value — and
creates a Success transaction, while the claim requires every amount
unequal to the total to fail with the invalid-amount error. -/
theorem claim2_cex :
    a0.val ≠ (Dec.mk 10 2).val ∧
    (create_payment 1 a0 "Card" σ2c).1 = Except.ok (1, TxStatus.Success) ∧
    (create_payment 1 a0 "Card" σ2c).2.transactions
      = [⟨1, 1, a0, "Card", TxStatus.Success⟩] := by
  refine ⟨?_, by decide, by decide⟩
  intro hval
  have h := (Dec.val_eq_iff a0 ⟨10, 2⟩).mp hval
  revert h
  decide

/-- Witness for C2 (amended): an amount whose float differs from the
order total is rejected with no state change. -/
theorem claim2_witness :
    create_payment 1 ⟨5, 0⟩ "Card" σ2c = (Except.error PayError.invalidAmount, σ2c) :=
  claim2_payment_amount_check.1 σ2c 1 ⟨5, 0⟩ "Card" ⟨1, 1, ⟨10, 2⟩, OrderStatus.Pending⟩
    (by decide) (by decide)

/-- Claim C3: for every order whose status is already Completed, a `pay`
call fails cleanly with the not-payable error and creates no new
Transaction row (the state is unchanged); consequently, starting from a
state where the order has at most one Success transaction — and exactly
one only if it is Completed — no sequence of further `pay` calls can ever
give the order a second Success transaction. -/
theorem claim3_no_double_pay :
    (∀ (σ : DBState) (oid : ℕ) (o : Order) (a : Dec) (m : String),
      findOrder σ oid = some o → o.status = OrderStatus.Completed →
      pay oid a m σ = (Except.error PayError.orderNotPayable, σ)) ∧
    (∀ (σ : DBState) (oid : ℕ) (calls : List (ℕ × Dec × String)),
      successCount σ oid ≤ 1 →
      (successCount σ oid = 1 → orderStatus σ oid = some OrderStatus.Completed) →
      successCount (paySeq calls σ) oid ≤ 1) := by
  constructor
  · intro σ oid o a m hfo hst
    unfold pay
    rw [hfo]
    simp [Order.can_be_paid, hst]
  · intro σ oid calls h1 h2
    exact (paySeq_inv calls σ oid h1 h2).1

/-- Witness for C3: paying the Completed order of `σ6` fails with the
not-payable error and leaves the state unchanged, and a further pay
sequence leaves it with at most one Success transaction. -/
theorem claim3_witness :
    pay 1 ⟨200000, 2⟩ "Card" σ6 = (Except.error PayError.orderNotPayable, σ6) ∧
    successCount (paySeq [(1, ⟨200000, 2⟩, "Card")] σ6) 1 ≤ 1 :=
  ⟨claim3_no_double_pay.1 σ6 1 ⟨1, 1, ⟨200000, 2⟩, OrderStatus.Completed⟩ ⟨200000, 2⟩ "Card"
     (by decide) rfl,
   claim3_no_double_pay.2 σ6 1 [(1, ⟨200000, 2⟩, "Card")] (by decide) (by decide)⟩

/-- Claim C7 (amended): the stock-ledger methods preserve the
purchasability coupling — `decrease_stock` clears `is_available` whenever
the stock it writes reaches 0, and `increase_stock` restores it — but the
reserve performed by order creation bypasses those methods
(`Product.objects.filter(...).update(stock_quantity=...)`) and never
touches `is_available`: a successful `create_order_from_cart` leaves
every product's availability flag exactly as it was, even for products
whose stock it drops to 0. -/
theorem claim7_purchasability_coupling :
    (∀ (p : Product) (q : ℤ), (p.decrease_stock q).1 = none →
      (p.decrease_stock q).2.stock_quantity = 0 →
      (p.decrease_stock q).2.is_available = false) ∧
    (∀ (p : Product) (q : ℤ), (p.increase_stock q).is_available = true) ∧
    (∀ (failAt : Option ℕ) (user : ℕ) (σ : DBState) (r : ℕ × Dec) (σ2 : DBState),
      create_order_from_cart failAt user σ = (Except.ok r, σ2) →
      σ2.products.map (fun p => (p.id, p.is_available))
        = σ.products.map (fun p => (p.id, p.is_available))) := by
  refine ⟨?_, ?_, ?_⟩
  · intro p q h1 h2
    unfold Product.decrease_stock at h1 h2 ⊢
    by_cases hlt : p.stock_quantity < q
    · rw [if_pos hlt] at h1
      simp at h1
    · rw [if_neg hlt] at h2 ⊢
      simp only [] at h2 ⊢
      simp [h2]
  · intro p q
    rfl
  · intro failAt user σ r σ2 h
    obtain ⟨oid, tot⟩ := r
    obtain ⟨snap, hsnap, hcs⟩ := create_order_ok h
    obtain ⟨hoid, σd, hpi, hσ2⟩ := createOrderWithSnapshot_ok hcs
    obtain ⟨hA, hB, hC, hD, hE, hF, hG, hH⟩ := processItems_ok _ _ snap 0 _ _ σd tot hpi
    have hprod : σ2.products = σd.products := by rw [hσ2]; rfl
    have hH2 : σd.products.map prodMeta = σ.products.map prodMeta := by
      simpa [createOrderRow] using hH
    have hmapped := congrArg
      (fun l => l.map (fun x : ℕ × String × Dec × Bool => (x.1, x.2.2.2))) hH2
    simp only [List.map_map] at hmapped
    have heq2 : ((fun x : ℕ × String × Dec × Bool => (x.1, x.2.2.2)) ∘ prodMeta)
        = (fun p : Product => (p.id, p.is_available)) := by
      funext p
      rfl
    rw [heq2] at hmapped
    rw [hprod]
    exact hmapped

/-- Counterexample to C7 as stated: in `σ7` product 1 has stock 2 and is
available; a successful order for quantity 2 drops its stock to 0 through
the order-creation reserve, yet `is_available` is still true afterwards,
while the claim requires the flag to be cleared whenever a stock mutation
reaches 0. -/
theorem claim7_cex :
    (create_order_from_cart none 1 σ7).1 = Except.ok (1, ⟨10, 0⟩) ∧
    prodOf (create_order_from_cart none 1 σ7).2 1
      = some ⟨1, "A", ⟨5, 0⟩, 0, true⟩ :=
  ⟨by decide, by decide⟩

/-- Witness for C7 (amended): `decrease_stock` to 0 clears the flag,
and a successful order creation leaves every availability flag as it
was. -/
theorem claim7_witness :
    (pw.decrease_stock 10).2.is_available = false ∧
    (create_order_from_cart none 1 σw).2.products.map (fun p => (p.id, p.is_available))
      = σw.products.map (fun p => (p.id, p.is_available)) :=
  ⟨claim7_purchasability_coupling.1 pw 10 (by decide) (by decide),
   claim7_purchasability_coupling.2.2 none 1 σw (1, ⟨10, 0⟩)
     (create_order_from_cart none 1 σw).2 (by decide)⟩

/-- Claim C9 (amended): after a successful `create_order_from_cart` the
buyer's cart is cleared in full — the reference behaviour deletes every
cart line of the buyer, including lines that were not part of the
snapshot — while cart lines of other buyers remain unchanged. -/
theorem claim9_cart_clear (failAt : Option ℕ) (user : ℕ) (σ : DBState)
    (r : ℕ × Dec) (σ2 : DBState)
    (h : create_order_from_cart failAt user σ = (Except.ok r, σ2)) :
    σ2.cartItems = σ.cartItems.filter (fun c => c.user_id != user) := by
  obtain ⟨oid, tot⟩ := r
  obtain ⟨snap, hsnap, hcs⟩ := create_order_ok h
  obtain ⟨hoid, σd, hpi, hσ2⟩ := createOrderWithSnapshot_ok hcs
  obtain ⟨hA, hB, hC, hD, hE, hF, hG, hH⟩ := processItems_ok _ _ snap 0 _ _ σd tot hpi
  have hcart : σd.cartItems = σ.cartItems := by
    simpa [createOrderRow] using hD
  rw [hσ2]
  show ((setOrderTotal σd σ.nextOrderId tot).cartItems.filter (fun c => c.user_id != user)) = _
  rw [show (setOrderTotal σd σ.nextOrderId tot).cartItems = σd.cartItems from rfl, hcart]

/-- Counterexample to C9 as stated: the snapshot taken at line 36 of
src/apps/orders/services.py contains only buyer 1's line for product 1,
while live cart storage also holds the line for product 2 (added after
the snapshot); the claim says that line must survive, but the blanket
`filter(user=user).delete()` removes it too. -/
theorem claim9_cex :
    (createOrderWithSnapshot none 1 [(⟨1, 1, 1⟩, ⟨1, "A", ⟨5, 0⟩, 3, true⟩)] σ9).1
      = Except.ok (1, ⟨5, 0⟩) ∧
    (⟨1, 2, 1⟩ : CartItem) ∈ σ9.cartItems ∧
    (⟨1, 2, 1⟩ : CartItem) ∉
      (createOrderWithSnapshot none 1 [(⟨1, 1, 1⟩, ⟨1, "A", ⟨5, 0⟩, 3, true⟩)] σ9).2.cartItems :=
  ⟨by decide, by decide, by decide⟩

/-- Witness for C9 (amended): after the successful order in `σw`, the
buyer's cart lines are gone and nothing else changed in cart storage. -/
theorem claim9_witness :
    (create_order_from_cart none 1 σw).2.cartItems
      = σw.cartItems.filter (fun c => c.user_id != 1) :=
  claim9_cart_clear none 1 σw (1, ⟨10, 0⟩) (create_order_from_cart none 1 σw).2 (by decide)

/-- Claim C5: for every successful `create_order_from_cart` (under
foreign-key freshness of the new order id, which Django's AutoField
guarantees), the persisted order's `total_amount` equals the sum over the
persisted order lines of quantity times `price_at_purchase`, and each
order line carries exactly the product id, quantity and unit price
captured in the cart snapshot — copied once at creation, never re-read
from the live product. -/
theorem claim5_order_total (failAt : Option ℕ) (user : ℕ) (σ : DBState)
    (snap : List (CartItem × Product)) (oid : ℕ) (tot : Dec) (σ2 : DBState)
    (hsnap : attachProducts σ (getCart σ user) = some snap)
    (h : create_order_from_cart failAt user σ = (Except.ok (oid, tot), σ2))
    (hwfI : ∀ it ∈ σ.orderItems, it.order_id ≠ σ.nextOrderId)
    (hwfO : ∀ o ∈ σ.orders, o.id ≠ σ.nextOrderId) :
    (∃ o, findOrder σ2 oid = some o ∧ o.total_amount = tot) ∧
    tot.val = ((itemsOf σ2 oid).map
        (fun it => (it.quantity : ℚ) * it.price_at_purchase.val)).sum ∧
    (itemsOf σ2 oid).map (fun it => (it.product_id, it.quantity, it.price_at_purchase))
      = snap.map (fun x => (x.2.id, x.1.quantity, x.2.price)) := by
  obtain ⟨snap', hsnap', hcs⟩ := create_order_ok h
  rw [hsnap] at hsnap'
  injection hsnap' with hs
  subst hs
  obtain ⟨hoid, σd, hpi, hσ2⟩ := createOrderWithSnapshot_ok hcs
  subst hoid
  obtain ⟨hA, hB, hC, hD, hE, hF, hG, hH⟩ :=
    processItems_ok failAt σ.nextOrderId snap 0 (createOrderRow σ user) Dec.zero σd tot hpi
  have hitems : itemsOf σ2 σ.nextOrderId = snap.map (mkItem σ.nextOrderId) := by
    unfold itemsOf
    have hoi : σ2.orderItems = σ.orderItems ++ snap.map (mkItem σ.nextOrderId) := by
      have h1 : σ2.orderItems = σd.orderItems := by rw [hσ2]; rfl
      rw [h1, hA]
      rfl
    rw [hoi, List.filter_append]
    have h1 : σ.orderItems.filter (fun it => it.order_id = σ.nextOrderId) = [] := by
      rw [List.filter_eq_nil_iff]
      intro it hit
      simpa using hwfI it hit
    have h2 : (snap.map (mkItem σ.nextOrderId)).filter
        (fun it => it.order_id = σ.nextOrderId) = snap.map (mkItem σ.nextOrderId) := by
      apply List.filter_eq_self.mpr
      intro it hit
      obtain ⟨x, hx, rfl⟩ := List.mem_map.mp hit
      simp [mkItem]
    rw [h1, h2, List.nil_append]
  have horders : σ2.orders =
      (σ.orders ++ [(⟨σ.nextOrderId, user, Dec.zero, OrderStatus.Pending⟩ : Order)]).map
        (fun o : Order => if o.id = σ.nextOrderId then { o with total_amount := tot } else o) := by
    have h1 : σ2.orders = (setOrderTotal σd σ.nextOrderId tot).orders := by rw [hσ2]; rfl
    have h2 : σd.orders
        = σ.orders ++ [(⟨σ.nextOrderId, user, Dec.zero, OrderStatus.Pending⟩ : Order)] := by
      rw [hC]
      rfl
    rw [h1]
    show σd.orders.map _ = _
    rw [h2]
  have hfind : findOrder σ2 σ.nextOrderId
      = some ⟨σ.nextOrderId, user, tot, OrderStatus.Pending⟩ := by
    unfold findOrder
    rw [horders, List.map_append, List.find?_append]
    have h1 : ((σ.orders.map
        (fun o => if o.id = σ.nextOrderId then { o with total_amount := tot } else o)).find?
        (fun o => o.id = σ.nextOrderId)) = none := by
      rw [List.find?_eq_none]
      intro o' ho'
      obtain ⟨o, ho, rfl⟩ := List.mem_map.mp ho'
      have hne := hwfO o ho
      simp [hne]
    rw [h1]
    simp
  refine ⟨⟨⟨σ.nextOrderId, user, tot, OrderStatus.Pending⟩, hfind, rfl⟩, ?_, ?_⟩
  · rw [hitems, hB, foldl_add_val]
    have hz : Dec.zero.val = 0 := by
      simp [Dec.zero, Dec.val]
    rw [hz, zero_add, List.map_map]
    rfl
  · rw [hitems, List.map_map]
    rfl

/-- Witness for C5: the order created from `σw` (2 units at price 5) is
persisted with total 10. -/
theorem claim5_witness :
    ∃ o, findOrder (create_order_from_cart none 1 σw).2 1 = some o ∧
      o.total_amount = ⟨10, 0⟩ :=
  (claim5_order_total none 1 σw [(⟨1, 1, 2⟩, pw)] 1 ⟨10, 0⟩
    (create_order_from_cart none 1 σw).2 (by decide) (by decide)
    (by decide) (by decide)).1

/-- Claim C6: `refund_transaction` succeeds if and only if the
transaction's status is Success (failing with not-found or not-refundable
otherwise, with no state change); on success, as one atomic unit, it sets
the transaction's status to Refunded, sets the owning order's status to
Refunded, and increases each product's stock by exactly the total
quantity of that order's lines for the product. -/
theorem claim6_refund :
    (∀ (σ : DBState) (tid : ℕ), findTx σ tid = none →
      refund_transaction tid σ = (Except.error RefundError.notFound, σ)) ∧
    (∀ (σ : DBState) (tid : ℕ) (tx : Transaction), findTx σ tid = some tx →
      tx.status ≠ TxStatus.Success →
      refund_transaction tid σ = (Except.error RefundError.notRefundable, σ)) ∧
    (∀ (σ : DBState) (tid : ℕ) (tx : Transaction), findTx σ tid = some tx →
      tx.status = TxStatus.Success →
      (refund_transaction tid σ).1 = Except.ok () ∧
      txStatus (refund_transaction tid σ).2 tid = some TxStatus.Refunded ∧
      orderStatus (refund_transaction tid σ).2 tx.order_id
        = (orderStatus σ tx.order_id).map (fun _ => OrderStatus.Refunded) ∧
      ((refund_transaction tid σ).2.products).map (fun p => (p.id, p.stock_quantity))
        = σ.products.map
            (fun p => (p.id, p.stock_quantity + releasedQty (itemsOf σ tx.order_id) p.id))) := by
  refine ⟨?_, ?_, ?_⟩
  · intro σ tid h
    unfold refund_transaction
    rw [h]
  · intro σ tid tx h hst
    unfold refund_transaction
    rw [h]
    simp [Transaction.can_be_refunded, hst]
  · intro σ tid tx h hst
    have htxid : tx.id = tid := by
      unfold findTx at h
      have := List.find?_some h
      simpa using this
    have hred : refund_transaction tid σ =
        (Except.ok (), (itemsOf σ tx.order_id).foldl
          (fun s it => releaseStock s it.product_id it.quantity)
          (setOrderStatus
            { σ with transactions := (σ.transactions.map
                (fun t => if t.id = tid then { t with status := TxStatus.Refunded } else t)) }
            tx.order_id OrderStatus.Refunded)) := by
      unfold refund_transaction
      rw [h]
      simp [Transaction.can_be_refunded, hst]
    rw [hred]
    set σ1 : DBState := { σ with transactions := (σ.transactions.map
        (fun t => if t.id = tid then { t with status := TxStatus.Refunded } else t)) } with hσ1
    set σ2 : DBState := setOrderStatus σ1 tx.order_id OrderStatus.Refunded with hσ2
    set σ3 : DBState := (itemsOf σ tx.order_id).foldl
        (fun s it => releaseStock s it.product_id it.quantity) σ2 with hσ3
    refine ⟨rfl, ?_, ?_, ?_⟩
    · have ht3 : σ3.transactions = σ2.transactions :=
        (releaseFold_frame (itemsOf σ tx.order_id) σ2).2
      unfold txStatus findTx
      rw [ht3]
      have ht2 : σ2.transactions = σ1.transactions := rfl
      rw [ht2, hσ1]
      show ((σ.transactions.map
          (fun t => if t.id = tid then { t with status := TxStatus.Refunded } else t)).find?
          (fun t => t.id = tid)).map (fun t => t.status) = some TxStatus.Refunded
      rw [findTx_mapRefund]
      unfold findTx at h
      rw [h]
      simp [htxid]
    · have ho3 : σ3.orders = σ2.orders :=
        (releaseFold_frame (itemsOf σ tx.order_id) σ2).1
      have hos : orderStatus σ3 tx.order_id = orderStatus σ2 tx.order_id := by
        unfold orderStatus findOrder
        rw [ho3]
      rw [hos]
      rcases hfo : findOrder σ tx.order_id with _ | o
      · have hfo1 : findOrder σ1 tx.order_id = none := hfo
        unfold orderStatus
        rw [findOrder_setOrderStatus, hfo1, hfo]
        rfl
      · have hfo1 : findOrder σ1 tx.order_id = some o := hfo
        unfold orderStatus
        rw [findOrder_setOrderStatus, hfo1, hfo]
        simp [findOrder_id hfo1]
    · have hp3 := releaseFold_products (itemsOf σ tx.order_id) σ2
      have hps : σ2.products = σ.products := rfl
      rw [hps] at hp3
      exact hp3

/-- Witness for C6: refunding the Success transaction of `σ6` succeeds,
marks transaction and order as Refunded, and restores the 2 units of
product 1. -/
theorem claim6_witness :
    (refund_transaction 1 σ6).1 = Except.ok () ∧
    txStatus (refund_transaction 1 σ6).2 1 = some TxStatus.Refunded ∧
    orderStatus (refund_transaction 1 σ6).2 1
      = (orderStatus σ6 1).map (fun _ => OrderStatus.Refunded) ∧
    ((refund_transaction 1 σ6).2.products).map (fun p => (p.id, p.stock_quantity))
      = σ6.products.map
          (fun p => (p.id, p.stock_quantity + releasedQty (itemsOf σ6 1) p.id)) :=
  claim6_refund.2.2 σ6 1 ⟨1, 1, ⟨200000, 2⟩, "Card", TxStatus.Success⟩ (by decide) rfl

end SportMag
